import Mathlib

/-!
Verification development for the optimized `Arc<T>` / `Weak<T>` implementation in
`src/examples/06-03_optimization.rs` (chapter 6.3 of the repository).

The control block `ArcData<T>` holds two atomic `usize` counters
(`data_ref_count` for strong references, `alloc_ref_count` for weak references
plus one implicit unit standing for all strong references) and the payload.
We shallowly embed it as a Lean structure whose counters are `Nat` with explicit
wraparound at `2 ^ 64` where the source's atomic read-modify-write could wrap,
plus two instrumentation counters recording how many times the payload destructor
(`ManuallyDrop::drop`) ran and how many times the control-block memory was freed
(`drop(Box::from_raw(...))`).

Each operation of the source is embedded as a function on this state.  Because
every counter mutation in the source is a single atomic instruction, a whole-
operation step in a sequentially consistent interleaving is a function of the
control-block state; compare-and-swap retry loops succeed on their first
attempt when no other thread intervenes between the load and the CAS, which is
exactly the situation at the operation granularity modelled here.  Outcomes
distinguish normal completion from `std::process::abort()`, from an `assert!`
failure (an unwinding panic), and from the unbounded spin `downgrade` performs
while the `usize::MAX` sentinel is installed.
-/

/-- `usize::MAX` on the 64-bit targets the repository exercises. -/
def USIZE_MAX : Nat := 2 ^ 64 - 1

/-- The modulus at which `usize` arithmetic wraps. -/
def USIZE_MOD : Nat := 2 ^ 64

/-- Wrapping `usize` addition, the semantics of `AtomicUsize::fetch_add`. -/
def wrapAdd (a b : Nat) : Nat := (a + b) % USIZE_MOD

/-- Wrapping `usize` subtraction, the semantics of `AtomicUsize::fetch_sub`. -/
def wrapSub (a b : Nat) : Nat := (a + (USIZE_MOD - b % USIZE_MOD)) % USIZE_MOD

/-- Shallow embedding of the control block `ArcData<T>` of
`06-03_optimization.rs`, together with lifecycle instrumentation.

* `data_ref_count` — number of strong references (`Arc<T>`); the payload is
  dropped when it hits 0.
* `alloc_ref_count` — number of weak references (`Weak<T>`) plus one implicit
  unit representing "at least one `Arc<T>` exists"; the memory is freed when it
  hits 0.
* `data` — the payload (specialised to `Nat`; the protocol is payload-agnostic).
* `payloadDrops` — how many times `ManuallyDrop::drop` has run on the payload.
* `memFrees` — how many times the `ArcData` allocation has been freed. -/
structure ArcData where
  data_ref_count : Nat
  alloc_ref_count : Nat
  data : Nat
  payloadDrops : Nat
  memFrees : Nat
deriving DecidableEq, Repr

/-- Outcome of one embedded operation: normal completion, process abort
(`std::process::abort()`), an `assert!` failure (unwinding panic), or an
unbounded spin on the exclusivity sentinel. -/
inductive StepResult (α : Type) where
  | ok : α → StepResult α
  | abort : StepResult α
  | panicked : StepResult α
  | spins : StepResult α
deriving DecidableEq, Repr

/-- The normally completed value of an outcome, if any. -/
def StepResult.toOption {α : Type} : StepResult α → Option α
  | .ok a => some a
  | .abort => none
  | .panicked => none
  | .spins => none

/-- `Arc::new(data)` (lines 39–50): fresh control block with
`data_ref_count = 1` and `alloc_ref_count = 1` (the implicit weak unit for the
first strong handle). -/
def Arc.new (v : Nat) : ArcData :=
  { data_ref_count := 1, alloc_ref_count := 1, data := v
    payloadDrops := 0, memFrees := 0 }

/-- `Clone for Arc` (lines 186–193): `data_ref_count.fetch_add(1, Relaxed)`;
if the value read before the increment exceeds `usize::MAX / 2`, the process
aborts. -/
def Arc.clone (s : ArcData) : StepResult ArcData :=
  if USIZE_MAX / 2 < s.data_ref_count then .abort
  else .ok { s with data_ref_count := wrapAdd s.data_ref_count 1 }

/-- `Clone for Weak` (lines 166–173): `alloc_ref_count.fetch_add(1, Relaxed)`;
if the value read before the increment exceeds `usize::MAX / 2`, the process
aborts. -/
def Weak.clone (s : ArcData) : StepResult ArcData :=
  if USIZE_MAX / 2 < s.alloc_ref_count then .abort
  else .ok { s with alloc_ref_count := wrapAdd s.alloc_ref_count 1 }

/-- `Arc::downgrade` (lines 103–123): load `alloc_ref_count`; while it reads
`usize::MAX` (the `get_mut` sentinel) spin; `assert!(n < usize::MAX - 1)`
(an unwinding panic on failure); then `compare_exchange_weak(n, n + 1)`.  At
operation granularity the counter does not change between the load and the
CAS, so the sentinel case spins forever, the assertion decides panic, and the
CAS otherwise succeeds at once. -/
def Arc.downgrade (s : ArcData) : StepResult ArcData :=
  if s.alloc_ref_count = USIZE_MAX then .spins
  else if s.alloc_ref_count < USIZE_MAX - 1 then
    .ok { s with alloc_ref_count := wrapAdd s.alloc_ref_count 1 }
  else .panicked

/-- `Weak::upgrade` (lines 143–163): load `data_ref_count`; if 0 return
`None`; `assert!(n < usize::MAX)`; then `compare_exchange_weak(n, n + 1)` and
return `Some(Arc)`.  The returned `Option Unit` stands for the
`Option<Arc<T>>` (the handle itself carries no state beyond the pointer). -/
def Weak.upgrade (s : ArcData) : StepResult (Option Unit × ArcData) :=
  if s.data_ref_count = 0 then .ok (none, s)
  else if s.data_ref_count < USIZE_MAX then
    .ok (some (), { s with data_ref_count := wrapAdd s.data_ref_count 1 })
  else .panicked

/-- `Arc::get_mut` (lines 56–101): `alloc_ref_count.compare_exchange(1,
usize::MAX, Acquire, Relaxed)`; on failure return `None` with nothing written.
On success read `is_unique := data_ref_count == 1`, store
`alloc_ref_count := 1` (Release), and return `Some(&mut T)` iff `is_unique`.
The first component records the successive values stored into
`alloc_ref_count` during the call (the transient sentinel, then the restore),
the second is the returned `Option<&mut T>` (as `Option Unit`), and the third
is the state when the call returns. -/
def Arc.get_mut (s : ArcData) : List Nat × Option Unit × ArcData :=
  if s.alloc_ref_count = 1 then
    if s.data_ref_count = 1 then
      ([USIZE_MAX, 1], some (), { s with alloc_ref_count := 1 })
    else
      ([USIZE_MAX, 1], none, { s with alloc_ref_count := 1 })
  else ([], none, s)

/-- `Drop for Weak` (lines 175–184): `alloc_ref_count.fetch_sub(1, Release)`;
if the value read before the decrement was 1, free the control-block memory. -/
def Weak.drop (s : ArcData) : ArcData :=
  if s.alloc_ref_count = 1 then
    { s with alloc_ref_count := wrapSub s.alloc_ref_count 1
             memFrees := s.memFrees + 1 }
  else { s with alloc_ref_count := wrapSub s.alloc_ref_count 1 }

/-- `Drop for Arc` (lines 195–207): `data_ref_count.fetch_sub(1, Release)`;
if the value read before the decrement was 1, drop the payload in place and
then drop the implicit weak unit (running `Drop for Weak`). -/
def Arc.drop (s : ArcData) : ArcData :=
  if s.data_ref_count = 1 then
    Weak.drop { s with data_ref_count := wrapSub s.data_ref_count 1
                       payloadDrops := s.payloadDrops + 1 }
  else { s with data_ref_count := wrapSub s.data_ref_count 1 }

/-- The operations application code can perform on the handles
(§6 of the public surface; `deref` reads the payload and moves no state). -/
inductive Op where
  | cloneStrong : Op
  | dropStrong : Op
  | downgrade : Op
  | cloneWeak : Op
  | dropWeak : Op
  | upgrade : Op
  | getMut : Op
deriving DecidableEq, Repr

/-- A whole program state: the control block plus how many live `Arc<T>` and
`Weak<T>` handles currently exist (an operation on a handle kind is only
available while such a handle is live). -/
structure World where
  cb : ArcData
  strongHandles : Nat
  weakHandles : Nat
deriving DecidableEq, Repr

/-- The world after `Arc::new(v)`: one strong handle, no weak handles. -/
def World.init (v : Nat) : World :=
  { cb := Arc.new v, strongHandles := 1, weakHandles := 0 }

/-- One operation at whole-operation granularity.  `none` means the operation
is unavailable (no live handle of the required kind) or the process did not
complete it normally (abort, panic, or an unbounded sentinel spin). -/
def World.step (w : World) (op : Op) : Option World :=
  match op with
  | .cloneStrong =>
    if w.strongHandles = 0 then none else
    (Arc.clone w.cb).toOption.map fun cb' =>
      { cb := cb', strongHandles := w.strongHandles + 1, weakHandles := w.weakHandles }
  | .dropStrong =>
    if w.strongHandles = 0 then none else
    some { cb := Arc.drop w.cb, strongHandles := w.strongHandles - 1
           weakHandles := w.weakHandles }
  | .downgrade =>
    if w.strongHandles = 0 then none else
    (Arc.downgrade w.cb).toOption.map fun cb' =>
      { cb := cb', strongHandles := w.strongHandles, weakHandles := w.weakHandles + 1 }
  | .cloneWeak =>
    if w.weakHandles = 0 then none else
    (Weak.clone w.cb).toOption.map fun cb' =>
      { cb := cb', strongHandles := w.strongHandles, weakHandles := w.weakHandles + 1 }
  | .dropWeak =>
    if w.weakHandles = 0 then none else
    some { cb := Weak.drop w.cb, strongHandles := w.strongHandles
           weakHandles := w.weakHandles - 1 }
  | .upgrade =>
    if w.weakHandles = 0 then none else
    (Weak.upgrade w.cb).toOption.map fun r =>
      { cb := r.2
        strongHandles := if r.1.isSome then w.strongHandles + 1 else w.strongHandles
        weakHandles := w.weakHandles }
  | .getMut =>
    if w.strongHandles = 0 then none else
    some { cb := (Arc.get_mut w.cb).2.2, strongHandles := w.strongHandles
           weakHandles := w.weakHandles }

/-- Run a sequence of operations from a world. -/
def World.run (w : World) (ops : List Op) : Option World :=
  match ops with
  | [] => some w
  | op :: rest =>
    match World.step w op with
    | some w' => World.run w' rest
    | none => none

/-- The inductive invariant tying the counters to the live handles:
`data_ref_count` counts the strong handles; `alloc_ref_count` counts the weak
handles plus the implicit unit that exists while any strong handle does; the
payload has been destroyed exactly once as soon as (and only when) no strong
handle remains; the memory has been freed exactly once as soon as (and only
when) no handle of either kind remains; both counters fit in `usize`. -/
def ArcInv (w : World) : Prop :=
  w.cb.data_ref_count = w.strongHandles
  ∧ w.cb.alloc_ref_count = w.weakHandles + (if w.strongHandles = 0 then 0 else 1)
  ∧ w.cb.data_ref_count ≤ USIZE_MAX
  ∧ w.cb.alloc_ref_count ≤ USIZE_MAX
  ∧ w.cb.payloadDrops = (if w.strongHandles = 0 then 1 else 0)
  ∧ w.cb.memFrees = (if w.strongHandles = 0 ∧ w.weakHandles = 0 then 1 else 0)

theorem wrapAdd_one (a : Nat) (h : a < USIZE_MAX) : wrapAdd a 1 = a + 1 := by
  unfold wrapAdd USIZE_MOD
  unfold USIZE_MAX at h
  omega

theorem wrapSub_one (a : Nat) (h1 : 1 ≤ a) (h2 : a ≤ USIZE_MAX) :
    wrapSub a 1 = a - 1 := by
  unfold wrapSub USIZE_MOD
  unfold USIZE_MAX at h2
  omega

theorem StepResult.toOption_eq_some {α : Type} (r : StepResult α) (a : α) :
    r.toOption = some a ↔ r = .ok a := by
  cases r <;> simp [StepResult.toOption]

theorem arc_clone_ok (s s' : ArcData) :
    Arc.clone s = .ok s' ↔
      s.data_ref_count ≤ USIZE_MAX / 2
      ∧ s' = { s with data_ref_count := s.data_ref_count + 1 } := by
  unfold Arc.clone
  split_ifs with h
  · constructor
    · intro hc; cases hc
    · intro hc; omega
  · rw [wrapAdd_one _ (by unfold USIZE_MAX at h ⊢; omega)]
    simp only [StepResult.ok.injEq]
    constructor
    · intro hc; exact ⟨by omega, hc.symm⟩
    · intro hc; exact hc.2.symm

theorem weak_clone_ok (s s' : ArcData) :
    Weak.clone s = .ok s' ↔
      s.alloc_ref_count ≤ USIZE_MAX / 2
      ∧ s' = { s with alloc_ref_count := s.alloc_ref_count + 1 } := by
  unfold Weak.clone
  split_ifs with h
  · constructor
    · intro hc; cases hc
    · intro hc; omega
  · rw [wrapAdd_one _ (by unfold USIZE_MAX at h ⊢; omega)]
    simp only [StepResult.ok.injEq]
    constructor
    · intro hc; exact ⟨by omega, hc.symm⟩
    · intro hc; exact hc.2.symm

theorem arc_downgrade_ok (s s' : ArcData) :
    Arc.downgrade s = .ok s' ↔
      s.alloc_ref_count < USIZE_MAX - 1
      ∧ s' = { s with alloc_ref_count := s.alloc_ref_count + 1 } := by
  unfold Arc.downgrade
  split_ifs with h1 h2
  · constructor
    · intro hc; cases hc
    · intro hc; unfold USIZE_MAX at *; omega
  · rw [wrapAdd_one _ (by unfold USIZE_MAX at h2 ⊢; omega)]
    simp only [StepResult.ok.injEq]
    constructor
    · intro hc; exact ⟨h2, hc.symm⟩
    · intro hc; exact hc.2.symm
  · constructor
    · intro hc; cases hc
    · intro hc; exact absurd hc.1 h2

theorem weak_upgrade_eq (s : ArcData) :
    Weak.upgrade s =
      if s.data_ref_count = 0 then .ok (none, s)
      else if s.data_ref_count < USIZE_MAX then
        .ok (some (), { s with data_ref_count := s.data_ref_count + 1 })
      else .panicked := by
  unfold Weak.upgrade
  split_ifs with h1 h2
  · rfl
  · rw [wrapAdd_one _ h2]
  · rfl

theorem weak_drop_eq (s : ArcData) (h1 : 1 ≤ s.alloc_ref_count)
    (h2 : s.alloc_ref_count ≤ USIZE_MAX) :
    Weak.drop s =
      if s.alloc_ref_count = 1 then
        { s with alloc_ref_count := 0, memFrees := s.memFrees + 1 }
      else { s with alloc_ref_count := s.alloc_ref_count - 1 } := by
  unfold Weak.drop
  rw [wrapSub_one _ h1 h2]
  split_ifs with h
  · rw [h]
  · rfl

theorem arc_drop_eq (s : ArcData) (hd1 : 1 ≤ s.data_ref_count)
    (hd2 : s.data_ref_count ≤ USIZE_MAX) (ha1 : 1 ≤ s.alloc_ref_count)
    (ha2 : s.alloc_ref_count ≤ USIZE_MAX) :
    Arc.drop s =
      if s.data_ref_count = 1 then
        (if s.alloc_ref_count = 1 then
          { s with data_ref_count := 0, alloc_ref_count := 0,
                   payloadDrops := s.payloadDrops + 1, memFrees := s.memFrees + 1 }
         else
          { s with data_ref_count := 0, alloc_ref_count := s.alloc_ref_count - 1,
                   payloadDrops := s.payloadDrops + 1 })
      else { s with data_ref_count := s.data_ref_count - 1 } := by
  unfold Arc.drop
  rw [wrapSub_one _ hd1 hd2]
  split_ifs with h hw
  · rw [weak_drop_eq _ (by simpa using ha1) (by simpa using ha2)]
    simp only [hw, if_pos, h]
  · rw [weak_drop_eq _ (by simpa using ha1) (by simpa using ha2)]
    simp only [hw, if_neg, h]
    rfl
  · rfl

theorem init_inv (v : Nat) : ArcInv (World.init v) := by
  unfold ArcInv World.init Arc.new USIZE_MAX
  norm_num

theorem step_inv (w w' : World) (op : Op) (hInv : ArcInv w)
    (hstep : World.step w op = some w') : ArcInv w' := by
  obtain ⟨h1, h2, h3, h4, h5, h6⟩ := hInv
  cases op <;> simp only [World.step] at hstep
  case cloneStrong =>
    by_cases hs : w.strongHandles = 0
    · rw [if_pos hs] at hstep; cases hstep
    · rw [if_neg hs, Option.map_eq_some'] at hstep
      obtain ⟨cb', hc, rfl⟩ := hstep
      rw [StepResult.toOption_eq_some, arc_clone_ok] at hc
      obtain ⟨hbound, rfl⟩ := hc
      unfold ArcInv
      dsimp only
      split_ifs at h2 h5 h6 ⊢
      all_goals (try simp_all [USIZE_MAX])
      all_goals omega
  case dropStrong =>
    by_cases hs : w.strongHandles = 0
    · rw [if_pos hs] at hstep; cases hstep
    · rw [if_neg hs] at hstep
      simp only [Option.some.injEq] at hstep
      subst hstep
      have ha1 : 1 ≤ w.cb.alloc_ref_count := by rw [h2]; split_ifs <;> omega
      unfold ArcInv
      dsimp only
      rw [arc_drop_eq _ (by omega) h3 ha1 h4]
      split_ifs at h2 h5 h6 ⊢
      all_goals (try simp_all [USIZE_MAX])
      all_goals omega
  case downgrade =>
    by_cases hs : w.strongHandles = 0
    · rw [if_pos hs] at hstep; cases hstep
    · rw [if_neg hs, Option.map_eq_some'] at hstep
      obtain ⟨cb', hc, rfl⟩ := hstep
      rw [StepResult.toOption_eq_some, arc_downgrade_ok] at hc
      obtain ⟨hbound, rfl⟩ := hc
      unfold ArcInv
      dsimp only
      split_ifs at h2 h5 h6 ⊢
      all_goals (try simp_all [USIZE_MAX])
      all_goals omega
  case cloneWeak =>
    by_cases hs : w.weakHandles = 0
    · rw [if_pos hs] at hstep; cases hstep
    · rw [if_neg hs, Option.map_eq_some'] at hstep
      obtain ⟨cb', hc, rfl⟩ := hstep
      rw [StepResult.toOption_eq_some, weak_clone_ok] at hc
      obtain ⟨hbound, rfl⟩ := hc
      unfold ArcInv
      dsimp only
      split_ifs at h2 h5 h6 ⊢
      all_goals (try simp_all [USIZE_MAX])
      all_goals omega
  case dropWeak =>
    by_cases hs : w.weakHandles = 0
    · rw [if_pos hs] at hstep; cases hstep
    · rw [if_neg hs] at hstep
      simp only [Option.some.injEq] at hstep
      subst hstep
      have ha1 : 1 ≤ w.cb.alloc_ref_count := by rw [h2]; split_ifs <;> omega
      unfold ArcInv
      dsimp only
      rw [weak_drop_eq _ ha1 h4]
      split_ifs at h2 h5 h6 ⊢
      all_goals (try simp_all [USIZE_MAX])
      all_goals omega
  case upgrade =>
    by_cases hs : w.weakHandles = 0
    · rw [if_pos hs] at hstep; cases hstep
    · rw [if_neg hs, Option.map_eq_some'] at hstep
      obtain ⟨r, hc, rfl⟩ := hstep
      rw [StepResult.toOption_eq_some, weak_upgrade_eq] at hc
      split_ifs at hc with hz hlt
      · simp only [StepResult.ok.injEq] at hc
        subst hc
        unfold ArcInv
        dsimp only [Option.isSome]
        split_ifs at h2 h5 h6 ⊢
        all_goals (try simp_all [USIZE_MAX])
        all_goals omega
      · simp only [StepResult.ok.injEq] at hc
        subst hc
        unfold ArcInv
        dsimp only [Option.isSome]
        split_ifs at h2 h5 h6 ⊢
        all_goals (try simp_all [USIZE_MAX])
        all_goals omega
  case getMut =>
    by_cases hs : w.strongHandles = 0
    · rw [if_pos hs] at hstep; cases hstep
    · rw [if_neg hs] at hstep
      simp only [Option.some.injEq] at hstep
      subst hstep
      unfold ArcInv Arc.get_mut
      dsimp only
      split_ifs at h2 h5 h6 ⊢
      all_goals (try simp_all [USIZE_MAX])
      all_goals omega

theorem run_inv (ops : List Op) (w w' : World) (hInv : ArcInv w)
    (hrun : World.run w ops = some w') : ArcInv w' := by
  induction ops generalizing w with
  | nil =>
    simp only [World.run, Option.some.injEq] at hrun
    exact hrun ▸ hInv
  | cons op rest ih =>
    simp only [World.run] at hrun
    cases hstep : World.step w op with
    | none => rw [hstep] at hrun; cases hrun
    | some w1 =>
      rw [hstep] at hrun
      exact ih w1 (step_inv w w1 op hInv hstep) hrun

theorem step_strong_zero (w w' : World) (op : Op) (hInv : ArcInv w)
    (h0 : w.strongHandles = 0) (hstep : World.step w op = some w') :
    w'.strongHandles = 0 := by
  obtain ⟨h1, h2, h3, h4, h5, h6⟩ := hInv
  cases op <;> simp only [World.step] at hstep
  case cloneStrong => rw [if_pos h0] at hstep; cases hstep
  case dropStrong => rw [if_pos h0] at hstep; cases hstep
  case downgrade => rw [if_pos h0] at hstep; cases hstep
  case getMut => rw [if_pos h0] at hstep; cases hstep
  case cloneWeak =>
    by_cases hs : w.weakHandles = 0
    · rw [if_pos hs] at hstep; cases hstep
    · rw [if_neg hs, Option.map_eq_some'] at hstep
      obtain ⟨cb', hc, rfl⟩ := hstep
      exact h0
  case dropWeak =>
    by_cases hs : w.weakHandles = 0
    · rw [if_pos hs] at hstep; cases hstep
    · rw [if_neg hs] at hstep
      simp only [Option.some.injEq] at hstep
      subst hstep
      exact h0
  case upgrade =>
    by_cases hs : w.weakHandles = 0
    · rw [if_pos hs] at hstep; cases hstep
    · rw [if_neg hs, Option.map_eq_some'] at hstep
      obtain ⟨r, hc, rfl⟩ := hstep
      rw [StepResult.toOption_eq_some, weak_upgrade_eq] at hc
      rw [if_pos (by omega : w.cb.data_ref_count = 0)] at hc
      simp only [StepResult.ok.injEq] at hc
      subst hc
      simpa using h0

theorem run_strong_zero (ops : List Op) (w w' : World) (hInv : ArcInv w)
    (h0 : w.strongHandles = 0) (hrun : World.run w ops = some w') :
    w'.strongHandles = 0 := by
  induction ops generalizing w with
  | nil =>
    simp only [World.run, Option.some.injEq] at hrun
    exact hrun ▸ h0
  | cons op rest ih =>
    simp only [World.run] at hrun
    cases hstep : World.step w op with
    | none => rw [hstep] at hrun; cases hrun
    | some w1 =>
      rw [hstep] at hrun
      exact ih w1 (step_inv w w1 op hInv hstep)
        (step_strong_zero w w1 op hInv h0 hstep) hrun

/-- Claim C1: for every state of the control block, `Arc::get_mut` returns a
mutable view of the payload if and only if, at the instant of the check,
exactly one strong handle exists (`data_ref_count = 1`) and zero weak handles
exist (`alloc_ref_count = 1`); in every other state it returns `None`. -/
theorem claim1_get_mut_exclusive_iff (s : ArcData) :
    ((Arc.get_mut s).2.1).isSome = true ↔
      s.data_ref_count = 1 ∧ s.alloc_ref_count = 1 := by
  unfold Arc.get_mut
  split_ifs with ha hd <;> simp_all

/-- Claim C2: along every sequence of create/clone/downgrade/upgrade/drop
operations, the payload is destroyed exactly once, exactly when the strong
count reaches 0 (it reads 0 destructions while a strong handle lives and
exactly 1 as soon as none does), the control-block memory is freed exactly
once, exactly when the allocation count reaches 0 (0 frees while any handle
lives, exactly 1 as soon as none does), and the payload destruction never
happens after the memory reclamation: whenever the memory has been freed the
payload destructor has already run. -/
theorem claim2_lifecycle_exactly_once (v : Nat) (ops : List Op) (w : World)
    (h : World.run (World.init v) ops = some w) :
    w.cb.payloadDrops = (if w.strongHandles = 0 then 1 else 0)
    ∧ w.cb.memFrees = (if w.strongHandles = 0 ∧ w.weakHandles = 0 then 1 else 0)
    ∧ (w.cb.memFrees = 1 → w.cb.payloadDrops = 1) := by
  obtain ⟨h1, h2, h3, h4, h5, h6⟩ := run_inv ops (World.init v) w (init_inv v) h
  refine ⟨h5, h6, ?_⟩
  intro hm
  rw [h6] at hm
  rw [h5]
  split_ifs at hm ⊢ <;> simp_all

theorem claim2_lifecycle_exactly_once_witness :
    (⟨⟨0, 0, 0, 1, 1⟩, 0, 0⟩ : World).cb.payloadDrops
        = (if (⟨⟨0, 0, 0, 1, 1⟩, 0, 0⟩ : World).strongHandles = 0 then 1 else 0)
    ∧ (⟨⟨0, 0, 0, 1, 1⟩, 0, 0⟩ : World).cb.memFrees
        = (if (⟨⟨0, 0, 0, 1, 1⟩, 0, 0⟩ : World).strongHandles = 0
              ∧ (⟨⟨0, 0, 0, 1, 1⟩, 0, 0⟩ : World).weakHandles = 0 then 1 else 0)
    ∧ ((⟨⟨0, 0, 0, 1, 1⟩, 0, 0⟩ : World).cb.memFrees = 1 →
        (⟨⟨0, 0, 0, 1, 1⟩, 0, 0⟩ : World).cb.payloadDrops = 1) :=
  claim2_lifecycle_exactly_once 0 [Op.downgrade, Op.dropStrong, Op.upgrade, Op.dropWeak]
    ⟨⟨0, 0, 0, 1, 1⟩, 0, 0⟩ (by decide)

/-- Claim C3, counterexample: the claim says `downgrade` increments
`alloc_ref_count` under the same overflow-abort policy as clone (abort once
the pre-increment value exceeds roughly half of `usize::MAX`, never an
unwinding failure).  On the code this is false: at a pre-increment value of
`2 ^ 63 + 1`, which exceeds `usize::MAX / 2` and makes `Weak::clone` abort,
`Arc::downgrade` succeeds normally; and at `usize::MAX - 1`, where it does
refuse, it fails through an unwinding `assert!` panic, not an abort. -/
theorem claim3_downgrade_policy_counterexample :
    USIZE_MAX / 2 < (⟨1, 2 ^ 63 + 1, 0, 0, 0⟩ : ArcData).alloc_ref_count
    ∧ Arc.downgrade ⟨1, 2 ^ 63 + 1, 0, 0, 0⟩ = .ok ⟨1, 2 ^ 63 + 2, 0, 0, 0⟩
    ∧ Weak.clone ⟨1, 2 ^ 63 + 1, 0, 0, 0⟩ = .abort
    ∧ Arc.downgrade ⟨1, USIZE_MAX - 1, 0, 0, 0⟩ = .panicked := by
  decide

/-- Claim C3 as amended: `downgrade` increments `alloc_ref_count` by 1, but
its overflow protection differs from clone's: it never aborts the process;
while the pre-increment value is below `usize::MAX - 1` it succeeds (even far
beyond half the maximum), at exactly `usize::MAX - 1` it fails through an
unwinding `assert!` panic, and at the sentinel `usize::MAX` it spins. -/
theorem claim3_downgrade_policy_amended (s : ArcData) :
    Arc.downgrade s ≠ .abort
    ∧ (s.alloc_ref_count < USIZE_MAX - 1 →
        Arc.downgrade s = .ok { s with alloc_ref_count := s.alloc_ref_count + 1 })
    ∧ (s.alloc_ref_count = USIZE_MAX - 1 → Arc.downgrade s = .panicked)
    ∧ (s.alloc_ref_count = USIZE_MAX → Arc.downgrade s = .spins) := by
  refine ⟨?_, ?_, ?_, ?_⟩
  · unfold Arc.downgrade
    split_ifs <;> intro hc <;> cases hc
  · intro h
    rw [arc_downgrade_ok]
    exact ⟨h, rfl⟩
  · intro h
    unfold Arc.downgrade
    rw [if_neg (by unfold USIZE_MAX at *; omega), if_neg (by omega)]
  · intro h
    unfold Arc.downgrade
    rw [if_pos h]

theorem claim3_downgrade_policy_amended_witness :
    Arc.downgrade ⟨1, 5, 0, 0, 0⟩ = .ok ⟨1, 6, 0, 0, 0⟩ :=
  (claim3_downgrade_policy_amended ⟨1, 5, 0, 0, 0⟩).2.1 (by decide)

/-- Claim C4: in every reachable state whose strong count has reached 0, every
subsequent upgrade returns `None`, and no sequence of further operations ever
makes the strong count positive again: the zero strong count is terminal. -/
theorem claim4_upgrade_terminal (v : Nat) (ops more : List Op) (w w' : World)
    (h : World.run (World.init v) ops = some w)
    (h0 : w.cb.data_ref_count = 0)
    (h' : World.run w more = some w') :
    w'.cb.data_ref_count = 0 ∧ Weak.upgrade w'.cb = .ok (none, w'.cb) := by
  have hInv := run_inv ops (World.init v) w (init_inv v) h
  have hs0 : w.strongHandles = 0 := by rw [← hInv.1]; exact h0
  have hInv' := run_inv more w w' hInv h'
  have hs0' := run_strong_zero more w w' hInv hs0 h'
  have hd0 : w'.cb.data_ref_count = 0 := by rw [hInv'.1, hs0']
  refine ⟨hd0, ?_⟩
  rw [weak_upgrade_eq, if_pos hd0]

theorem claim4_upgrade_terminal_witness :
    (⟨⟨0, 1, 0, 1, 0⟩, 0, 1⟩ : World).cb.data_ref_count = 0
    ∧ Weak.upgrade (⟨⟨0, 1, 0, 1, 0⟩, 0, 1⟩ : World).cb
        = .ok (none, (⟨⟨0, 1, 0, 1, 0⟩, 0, 1⟩ : World).cb) :=
  claim4_upgrade_terminal 0 [Op.downgrade, Op.dropStrong] [Op.upgrade]
    ⟨⟨0, 1, 0, 1, 0⟩, 0, 1⟩ ⟨⟨0, 1, 0, 1, 0⟩, 0, 1⟩ (by decide) (by decide) (by decide)

/-- Claim C5: `upgrade` returns `None` exactly when the strong count is 0 (the
payload is already destroyed), and otherwise increments the strong count by 1
through its compare-and-swap loop and returns a new strong handle on the same
control block.  The hypothesis excludes the astronomical counter value
`usize::MAX` at which the defensive `assert!` would fire instead (the spec
treats counter overflow separately as a fatal condition). -/
theorem claim5_upgrade_behavior (s : ArcData) (h : s.data_ref_count < USIZE_MAX) :
    (s.data_ref_count = 0 → Weak.upgrade s = .ok (none, s))
    ∧ (s.data_ref_count ≠ 0 →
        Weak.upgrade s
          = .ok (some (), { s with data_ref_count := s.data_ref_count + 1 })) := by
  rw [weak_upgrade_eq]
  constructor
  · intro h0; rw [if_pos h0]
  · intro h0; rw [if_neg h0, if_pos h]

theorem claim5_upgrade_behavior_witness :
    Weak.upgrade ⟨1, 1, 5, 0, 0⟩ = .ok (some (), ⟨2, 1, 5, 0, 0⟩) :=
  (claim5_upgrade_behavior ⟨1, 1, 5, 0, 0⟩ (by decide)).2 (by decide)

/-- Claim C6: from every state with at least one live strong handle (and
counters not at the overflow values the spec treats as fatal), `downgrade`
followed immediately by `upgrade` on the result succeeds and yields a strong
handle to the same payload value on the same control block. -/
theorem claim6_downgrade_upgrade_roundtrip (s : ArcData)
    (h1 : 1 ≤ s.data_ref_count) (h2 : s.data_ref_count < USIZE_MAX)
    (h3 : s.alloc_ref_count < USIZE_MAX - 1) :
    ∃ s', Arc.downgrade s = .ok s'
      ∧ Weak.upgrade s'
          = .ok (some (), { s' with data_ref_count := s'.data_ref_count + 1 })
      ∧ s'.data = s.data ∧ s'.data_ref_count = s.data_ref_count := by
  refine ⟨{ s with alloc_ref_count := s.alloc_ref_count + 1 }, ?_, ?_, rfl, rfl⟩
  · rw [arc_downgrade_ok]
    exact ⟨h3, rfl⟩
  · rw [weak_upgrade_eq]
    dsimp only
    rw [if_neg (by omega), if_pos h2]

theorem claim6_downgrade_upgrade_roundtrip_witness :
    ∃ s', Arc.downgrade ⟨1, 1, 7, 0, 0⟩ = .ok s'
      ∧ Weak.upgrade s'
          = .ok (some (), { s' with data_ref_count := s'.data_ref_count + 1 })
      ∧ s'.data = (⟨1, 1, 7, 0, 0⟩ : ArcData).data
      ∧ s'.data_ref_count = (⟨1, 1, 7, 0, 0⟩ : ArcData).data_ref_count :=
  claim6_downgrade_upgrade_roundtrip ⟨1, 1, 7, 0, 0⟩ (by decide) (by decide) (by decide)

/-- Claim C7: `Arc::clone` increments the strong count by 1 and returns a new
strong handle on the same control block whenever the pre-increment value is at
most `usize::MAX / 2`, and aborts the process (no return, no unwinding)
whenever the pre-increment value exceeds `usize::MAX / 2`; so under the
precondition `data_ref_count ≤ usize::MAX / 2` the abort branch is
unreachable and clone always returns. -/
theorem claim7_clone_overflow_policy (s : ArcData) :
    Arc.clone s =
      if s.data_ref_count ≤ USIZE_MAX / 2 then
        .ok { s with data_ref_count := s.data_ref_count + 1 }
      else .abort := by
  by_cases h : s.data_ref_count ≤ USIZE_MAX / 2
  · rw [if_pos h, arc_clone_ok]
    exact ⟨h, rfl⟩
  · rw [if_neg h]
    unfold Arc.clone
    rw [if_pos (by omega)]

/-- Claim C8: every `Arc::get_mut` call that successfully installed the
`usize::MAX` sentinel (i.e. found `alloc_ref_count = 1`) writes exactly the
sentinel and then the restore value 1 into `alloc_ref_count`, so on both the
exclusive and the non-exclusive outcome the counter reads 1 — never the
sentinel — once the call returns. -/
theorem claim8_get_mut_restores_sentinel (s : ArcData) (h : s.alloc_ref_count = 1) :
    (Arc.get_mut s).1 = [USIZE_MAX, 1]
    ∧ ((Arc.get_mut s).2.2).alloc_ref_count = 1 := by
  unfold Arc.get_mut
  rw [if_pos h]
  split_ifs <;> exact ⟨rfl, rfl⟩

theorem claim8_get_mut_restores_sentinel_witness :
    (Arc.get_mut ⟨2, 1, 3, 0, 0⟩).1 = [USIZE_MAX, 1]
    ∧ ((Arc.get_mut ⟨2, 1, 3, 0, 0⟩).2.2).alloc_ref_count = 1 :=
  claim8_get_mut_restores_sentinel ⟨2, 1, 3, 0, 0⟩ (by decide)

/-- Claim C9: whenever `alloc_ref_count` is greater than 1 (at least one weak
handle exists), `Arc::get_mut` returns `None`, writes nothing, and leaves the
whole control-block state — both counters and the payload — unchanged. -/
theorem claim9_get_mut_nonexclusive_frame (s : ArcData) (h : 1 < s.alloc_ref_count) :
    Arc.get_mut s = ([], none, s) := by
  unfold Arc.get_mut
  rw [if_neg (by omega)]

theorem claim9_get_mut_nonexclusive_frame_witness :
    Arc.get_mut ⟨1, 2, 3, 0, 0⟩ = ([], none, ⟨1, 2, 3, 0, 0⟩) :=
  claim9_get_mut_nonexclusive_frame ⟨1, 2, 3, 0, 0⟩ (by decide)

/-- Claim C10: a successful `upgrade` increments the strong count by exactly 1
and leaves `alloc_ref_count` (and the payload) unchanged: the new strong
handle joins the single implicit weak unit already held collectively by the
strong handles instead of contributing a new unit to the allocation count. -/
theorem claim10_upgrade_frame (s s' : ArcData)
    (h : Weak.upgrade s = .ok (some (), s')) :
    s'.data_ref_count = s.data_ref_count + 1
    ∧ s'.alloc_ref_count = s.alloc_ref_count
    ∧ s'.data = s.data := by
  rw [weak_upgrade_eq] at h
  split_ifs at h with h0 hlt
  · simp at h
  · simp only [StepResult.ok.injEq, Prod.mk.injEq] at h
    obtain ⟨-, rfl⟩ := h
    exact ⟨rfl, rfl, rfl⟩

theorem claim10_upgrade_frame_witness :
    (⟨2, 1, 9, 0, 0⟩ : ArcData).data_ref_count
        = (⟨1, 1, 9, 0, 0⟩ : ArcData).data_ref_count + 1
    ∧ (⟨2, 1, 9, 0, 0⟩ : ArcData).alloc_ref_count
        = (⟨1, 1, 9, 0, 0⟩ : ArcData).alloc_ref_count
    ∧ (⟨2, 1, 9, 0, 0⟩ : ArcData).data = (⟨1, 1, 9, 0, 0⟩ : ArcData).data :=
  claim10_upgrade_frame ⟨1, 1, 9, 0, 0⟩ ⟨2, 1, 9, 0, 0⟩ (by decide)
